import Mathlib

/-!
Shallow embedding of `pictures_clustring.py` (repository
`assafnativ/pictures_clustring`) and proofs about the claims of its
specification.

Conventions used throughout:
* Python `None` becomes `Option.none`; Python string truthiness
  (`if s:`) becomes `s ≠ ""` on `String`, and `x or y` on
  `str | None` values becomes `pyOr`.
* Python floats in the GPS arithmetic are modelled as `Rat`.
* Python dictionaries used as key→value stores become association
  lists (`List (String × v)`), with `lookup?`/`storeSet` mirroring
  `key in d` / `d[key] = v`.
* Code that can raise an uncaught exception is embedded with
  `Except String`, the error string recording the Python exception.
-/

/-- Calendar date with day granularity (Python `datetime.date`). -/
structure Date where
  year : Nat
  month : Nat
  day : Nat
deriving DecidableEq

instance : Inhabited Date := ⟨⟨1970, 1, 1⟩⟩

/-- Python `date` ordering (lexicographic on year, month, day), as used by
`image_data.sort(key=lambda x: x[3])`. -/
def dateLe (a b : Date) : Bool :=
  a.year < b.year ∨ (a.year = b.year ∧
    (a.month < b.month ∨ (a.month = b.month ∧ a.day ≤ b.day)))

/-- Strict version of `dateLe`. -/
def dateLt (a b : Date) : Bool :=
  dateLe a b && !(a = b)

/-- Zero-padded two-digit rendering, as `strftime` does for `%m` / `%d`. -/
def pad2 (n : Nat) : String :=
  if n < 10 then "0" ++ toString n else toString n

/-- Rendering of `date.strftime` with format `%Y-%m-%d` (years of the
usual four digits assumed). -/
def fmtDate (d : Date) : String :=
  toString d.year ++ "-" ++ pad2 d.month ++ "-" ++ pad2 d.day

/-! ## Memo Cache (the `cache` decorator, lines 17-47)

The decorator keeps ONE module-level global `CACHE_DB` shared by every
decorated function, loads it lazily from the decorating call's
`cache_file` when the global is falsy (`None` or the empty dict), and on
a miss stores the computed value and rewrites the whole mapping to that
`cache_file`. -/

/-- The pickled mapping: fingerprint key → value. -/
abbrev CacheDb (V : Type) := List (String × V)

/-- State of the `CACHE_DB` global plus the durable files on disk (file name → pickled
mapping; a missing file is an absent key). -/
structure CacheState (V : Type) where
  cacheDb : Option (CacheDb V)
  disk : List (String × CacheDb V)
deriving DecidableEq

/-- Dictionary lookup (`key in d` / `d[key]`). -/
def lookup? {α : Type} (k : String) : List (String × α) → Option α
  | [] => none
  | (k', v) :: rest => if k' = k then some v else lookup? k rest

/-- Dictionary assignment `d[key] = v` (overwrite in place or append). -/
def storeSet {α : Type} (k : String) (v : α) : List (String × α) → List (String × α)
  | [] => [(k, v)]
  | (k', v') :: rest => if k' = k then (k, v) :: rest else (k', v') :: storeSet k v rest

/-- Python truthiness test `not CACHE_DB`: true when the global is still
`None` or is an empty dict. -/
def dbFalsy {V : Type} : Option (CacheDb V) → Bool
  | none => true
  | some m => m.isEmpty

/-- The mapping the wrapper consults: the global when it is truthy,
otherwise the mapping loaded from `cache_file` (empty when the file does
not exist). -/
def effectiveDb {V : Type} (s : CacheState V) (cache_file : String) : CacheDb V :=
  if dbFalsy s.cacheDb then (lookup? cache_file s.disk).getD [] else s.cacheDb.getD []

/-- Result of one wrapped call: the returned value, the new state, and how
many times the wrapped function was invoked (0 or 1). -/
structure CacheResult (V : Type) where
  value : V
  state : CacheState V
  calls : Nat
deriving DecidableEq

/-- The body of `wrapper` in the `cache` decorator: `key` is
`repr((args, kwargs))`, `compute` the decorated function applied to those
arguments. On a hit the stored value is returned; on a miss the function
runs once, the entry is stored, and the whole mapping is rewritten to
`cache_file`. -/
def cacheWrapper {V : Type} (cache_file key : String) (compute : Unit → V)
    (s : CacheState V) : CacheResult V :=
  let db := effectiveDb s cache_file
  match lookup? key db with
  | some v => ⟨v, ⟨some db, s.disk⟩, 0⟩
  | none =>
    let v := compute ()
    let db' := storeSet key v db
    ⟨v, ⟨some db', storeSet cache_file db' s.disk⟩, 1⟩

/-! ## GPS coordinate conversion (`get_coordinates`, lines 67-83) -/

/-- The GPS sub-dictionary `geotagging` built by `get_geotagging` from
`GPSTAGS`: the four tags the script reads, plus a flag recording whether
any other GPS tag was present (it only matters for Python truthiness of
the dictionary). Degree/minute/second components are rationals. -/
structure Geotags where
  GPSLatitude : Option (List Rat)
  GPSLatitudeRef : Option String
  GPSLongitude : Option (List Rat)
  GPSLongitudeRef : Option String
  otherTags : Bool
deriving DecidableEq

/-- Python truthiness `not geotags` of the geotag dictionary: falsy iff no
tag at all is present. -/
def geotagsFalsy (g : Geotags) : Bool :=
  g.GPSLatitude.isNone && g.GPSLatitudeRef.isNone &&
    g.GPSLongitude.isNone && g.GPSLongitudeRef.isNone && !g.otherTags

/-- Translation of `sum([float(x) / 60 ** n for n, x in enumerate(value)])`. -/
def dmsSum (value : List Rat) : Rat :=
  (value.enum.map (fun p => p.2 / 60 ^ p.1)).sum

/-- The specification's formula for the same quantity, written as an
indexed sum: `sum(component / 60^i for i, component in enumerate(dms))`. -/
def specDmsSum (dms : List Rat) : Rat :=
  ∑ i in Finset.range dms.length, dms.getD i 0 / 60 ^ i

/-- Function `get_coordinates`: each present axis is converted with `dmsSum` and
negated when its reference tag is `S` (latitude) / `W` (longitude); an
absent axis stays `None`. -/
def get_coordinates (geotags : Geotags) : Option Rat × Option Rat :=
  let lat := geotags.GPSLatitude.map (fun value =>
    let l := dmsSum value
    if geotags.GPSLatitudeRef = some "S" then -l else l)
  let lon := geotags.GPSLongitude.map (fun value =>
    let l := dmsSum value
    if geotags.GPSLongitudeRef = some "W" then -l else l)
  (lat, lon)

/-! ## Geocoding retry loop (`get_location`, lines 178-201)

One iteration of `for attempt in range(10)` either obtains a non-`None`
`location` and breaks, obtains `None` and raises a plain `Exception`
(which the `except GeocoderServiceError` clause does NOT catch, so it
propagates), or raises `GeocoderServiceError`, which is caught, printed,
and followed by `time.sleep(1)`. If all ten attempts are consumed the
`for`/`else` clause raises. The provider call itself (lines 180-190) is
abstracted as an oracle from the attempt number to its outcome. -/

/-- Outcome of one provider call for a given attempt number. -/
inductive GeoAttempt (A : Type) where
  | found : A → GeoAttempt A
  | nores : GeoAttempt A
  | svcError : GeoAttempt A
deriving DecidableEq

/-- Result of the retry loop: the location (or the uncaught exception's
message) together with the number of `time.sleep(1)` calls performed. -/
structure GeoLoopResult (A : Type) where
  result : Except String A
  sleeps : Nat

/-- The retry loop with `fuel` attempts remaining, currently at attempt
number `attempt`, having slept `sleeps` times so far. -/
def geoRetryAux {A : Type} (provider : Nat → GeoAttempt A) :
    Nat → Nat → Nat → GeoLoopResult A
  | _, 0, sleeps => ⟨.error "Geo location query failed", sleeps⟩
  | attempt, fuel + 1, sleeps =>
    match provider attempt with
    | .found a => ⟨.ok a, sleeps⟩
    | .nores => ⟨.error "Query failed for coordinates", sleeps⟩
    | .svcError => geoRetryAux provider (attempt + 1) fuel (sleeps + 1)

/-- The loop `for attempt in range(10)` with the `else` clause raising after
exhaustion. -/
def geoRetry {A : Type} (provider : Nat → GeoAttempt A) : GeoLoopResult A :=
  geoRetryAux provider 0 10 0

/-! ## Metadata Extractor (`get_geotagging`, `get_location`,
`get_date_taken`, `get_metadata`, lines 49-65 and 160-248) -/

/-- The EXIF dictionary returned by `image._getexif()` (when not `None`),
restricted to the parts the script reads: the `GPSInfo` sub-block
(already projected through `GPSTAGS` as in `get_geotagging`) and tag
36867 `DateTimeOriginal` (already parsed from `"%Y:%m:%d %H:%M:%S"` and
truncated to a date, since only well-formed values occur in the claims).
-/
structure ExifData where
  gpsInfo : Option Geotags
  dateTimeOriginal : Option Date
deriving DecidableEq

/-- One input file as the script observes it: its (full) path, its EXIF
block (`None` when `_getexif()` yields `None`), and the date obtained
from `os.path.getmtime` (`get_file_datetime`). -/
structure MediaFile where
  path : String
  exif : Option ExifData
  mtimeDate : Date
deriving DecidableEq

/-- Function `get_geotagging`: `None` when there is no EXIF block or no `GPSInfo`
entry; otherwise the `GPSTAGS`-named dictionary. -/
def get_geotagging (exif : Option ExifData) : Option Geotags :=
  match exif with
  | none => none
  | some e => e.gpsInfo

/-- Function `get_location` (lines 161-215) up to the provider call: the two early
`"Unknown", "Unknown"` returns that never contact the network, then the
coordinate conversion and the delegation to the resolver (lines 170-215:
rounded-coordinate in-memory cache, retry loop, and address
normalization are abstracted as the `resolve` oracle). The `Bool`
records whether the resolver was reached. -/
def get_location (geotags : Option Geotags) (resolve : Rat → Rat → String × String) :
    (String × String) × Bool :=
  match geotags with
  | none => (("Unknown", "Unknown"), false)
  | some g =>
    if geotagsFalsy g then (("Unknown", "Unknown"), false)
    else if g.GPSLatitude.isNone || g.GPSLongitude.isNone then
      (("Unknown", "Unknown"), false)
    else
      match get_coordinates g with
      | (some lat, some lon) => (resolve lat lon, true)
      | _ => (("Unknown", "Unknown"), false)

/-- Function `get_date_taken` for images (`is_video` is `False` at the only call
site in this script, line 245; the video branch is dead code there since
line 247 reads the file timestamp directly). `36867 in exif` with `exif`
equal to `None` raises `TypeError`; with an EXIF dictionary present the
date falls back to the file timestamp when tag 36867 is absent. -/
def get_date_taken (exif : Option ExifData) (f : MediaFile) : Except String Date :=
  match exif with
  | none => .error "TypeError: argument of type NoneType is not iterable"
  | some e =>
    match e.dateTimeOriginal with
    | some d => .ok d
    | none => .ok f.mtimeDate

/-- Python `str.lower()`, written at the character-list level. -/
def strLower (s : String) : String := ⟨s.data.map Char.toLower⟩

/-- Python `str.endswith(suf)`, written at the character-list level. -/
def strEndsWith (s suf : String) : Bool := List.isSuffixOf suf.data s.data

/-- Test `file_path.lower().endswith(('.png', '.jpg', '.jpeg'))`. -/
def isImagePath (p : String) : Bool :=
  strEndsWith (strLower p) ".png" || strEndsWith (strLower p) ".jpg" ||
    strEndsWith (strLower p) ".jpeg"

/-- Test `file_path.lower().endswith('.mp4')`. -/
def isMp4Path (p : String) : Bool :=
  strEndsWith (strLower p) ".mp4"

/-- Function `get_metadata` (lines 238-248): images run the EXIF pathway (note
that `get_location` runs before `get_date_taken`, so a location may have
been resolved even when the date lookup then raises); `.mp4` files
return `(None, None, mtime-date)` without touching EXIF or the resolver;
anything else returns `(None, None, None)`. The `Bool` records whether
the geocoding resolver was invoked. -/
def get_metadata (f : MediaFile) (resolve : Rat → Rat → String × String) :
    Except String (Option String × Option String × Option Date) × Bool :=
  if isImagePath f.path then
    let geotags := get_geotagging f.exif
    let lc := get_location geotags resolve
    match get_date_taken f.exif f with
    | .ok d => (.ok (some lc.1.1, some lc.1.2, some d), lc.2)
    | .error e => (.error e, lc.2)
  else if isMp4Path f.path then
    (.ok (none, none, some f.mtimeDate), false)
  else
    (.ok (none, none, none), false)

/-! ## Indexing loop of `cluster_images` (lines 279-296) -/

/-- What `get_metadata` hands the indexing loop for one file. -/
structure RawItem where
  path : String
  country : Option String
  city : Option String
  date : Option Date
deriving DecidableEq

instance : Inhabited RawItem := ⟨⟨"", none, none, none⟩⟩

/-- One entry of `image_data`: `(file_path, country, city, date)`. -/
structure Rec where
  path : String
  country : String
  city : String
  date : Date
deriving DecidableEq

instance : Inhabited Rec := ⟨⟨"", "Unknown", "Unknown", default⟩⟩

/-- Python `x or default` for `x : str | None` (`None` and `""` are
falsy). -/
def pyOr (o : Option String) (default : String) : String :=
  match o with
  | none => default
  | some s => if s = "" then default else s

/-- The indexing loop: files whose date is `None` are skipped (`continue`
fires before `last_country`/`last_city` are touched); otherwise the
record inherits `last_country`/`last_city` through `or` and becomes the
new `last_*` pair. `lc`/`ls` are the current `last_country`/`last_city`
(both start as `"Unknown"`). -/
def indexLoop : List RawItem → String → String → List Rec
  | [], _, _ => []
  | it :: rest, lc, ls =>
    match it.date with
    | none => indexLoop rest lc ls
    | some d =>
      let c := pyOr it.country lc
      let s := pyOr it.city ls
      ⟨it.path, c, s, d⟩ :: indexLoop rest c s

/-- Run `get_metadata` over every file in order, aborting at the first
uncaught exception (as the unprotected call in the indexing loop does).
-/
def extractAll (resolve : Rat → Rat → String × String) :
    List MediaFile → Except String (List RawItem)
  | [] => .ok []
  | f :: fs =>
    match (get_metadata f resolve).1 with
    | .error e => .error e
    | .ok (c, s, d) =>
      match extractAll resolve fs with
      | .error e => .error e
      | .ok rest => .ok (⟨f.path, c, s, d⟩ :: rest)

/-- The whole indexing phase: extraction then the inheritance loop with
both `last_*` seeds equal to `"Unknown"`. -/
def indexFiles (resolve : Rat → Rat → String × String)
    (files : List MediaFile) : Except String (List Rec) :=
  match extractAll resolve files with
  | .error e => .error e
  | .ok raws => .ok (indexLoop raws "Unknown" "Unknown")

/-! ### Specification-side description of the indexing loop (for C10) -/

/-- Keep a string only when it is Python-truthy. -/
def truthyOpt (o : Option String) : Option String :=
  o.bind (fun s => if s = "" then none else some s)

/-- Modelled from the claim's words: the most recently seen truthy value
in `xs`, defaulting to `default` when none exists. -/
def lastTruthy (default : String) (xs : List (Option String)) : String :=
  xs.foldl (fun acc o => (truthyOpt o).getD acc) default

/-- The items that are actually indexed (date present; others are
skipped). -/
def keptItems (l : List RawItem) : List RawItem :=
  l.filter (fun it => it.date.isSome)

/-- Modelled from the claim's words: the i-th emitted record keeps its
file's path and date, and its country (resp. city) is the most recently
indexed truthy raw country (resp. city) in the kept prefix up to and
including itself, with the loop's seed as default. -/
def specRecords (l : List RawItem) (lc ls : String) : List Rec :=
  (List.range (keptItems l).length).map (fun i =>
    { path := ((keptItems l).getD i default).path
      country := lastTruthy lc (((keptItems l).take (i + 1)).map (·.country))
      city := lastTruthy ls (((keptItems l).take (i + 1)).map (·.city))
      date := ((keptItems l).getD i default).date.getD default })

/-! ## Run Grouper (`do_files` and the processing loop of
`cluster_images`, lines 250-268 and 299-325) -/

/-- One emitted run: the destination subdirectory name and the files
copied into it (the parameters of the `os.makedirs` + `shutil.copy2`
side effect of `do_files`). -/
structure Run where
  subdir : String
  files : List String
deriving DecidableEq

/-- The subdirectory label computed by `do_files` once both dates are
present: the date range (start date alone when the two dates are equal),
then `'_'.join` with country and city when both are truthy, with country
alone when only it is truthy, and the bare range otherwise. Note the
source never calls `slugify` on it. -/
def subdirName (start_date end_date : Date) (country city : String) : String :=
  let date_range :=
    if start_date = end_date then fmtDate start_date
    else fmtDate start_date ++ "_" ++ fmtDate end_date
  if country ≠ "" ∧ city ≠ "" then
    String.intercalate "_" [date_range, country, city]
  else if country ≠ "" then
    String.intercalate "_" [date_range, country]
  else
    date_range

/-- Function `do_files`: returns early (no directory, no copies) when either date
is `None`; otherwise describes the directory created and the files
copied into it. -/
def do_files (files_list : List String) (start_date end_date : Option Date)
    (country city : String) : Option Run :=
  match start_date, end_date with
  | some sd, some ed => some ⟨subdirName sd ed country city, files_list⟩
  | _, _ => none

/-- The processing loop over the date-sorted `image_data`, carrying
`copy_list`, `prev_country`, `prev_city`, `start_date` and `prev_date`;
disagreement in `(country, city)` emits the accumulated run, and the
final run is emitted after the loop. -/
def processLoop : List Rec → List String → String → String → Date → Date → List Run
  | [], copy_list, pc, ps, sd, pd =>
    (do_files copy_list (some sd) (some pd) pc ps).toList
  | r :: rest, copy_list, pc, ps, sd, pd =>
    if r.country = pc ∧ r.city = ps then
      processLoop rest (copy_list ++ [r.path]) pc ps sd r.date
    else
      (do_files copy_list (some sd) (some pd) pc ps).toList ++
        processLoop rest [r.path] r.country r.city r.date r.date

/-- Lines 299-325: `first = image_data[0]` raises `IndexError` on an
empty list; otherwise the loop is seeded from the first record (which
the loop then also visits, so its path enters `copy_list` at once). -/
def processRuns : List Rec → Except String (List Run)
  | [] => .error "IndexError: list index out of range"
  | first :: rest =>
    .ok (processLoop (first :: rest) [] first.country first.city first.date first.date)

/-- The runs actually emitted: none at all when the `IndexError` fires
(it fires before any `do_files` call). -/
def emittedRuns (rs : List Rec) : List Run :=
  match processRuns rs with
  | .ok l => l
  | .error _ => []

/-- Ghost mirror of `processLoop` keeping whole records instead of only
paths, used to state which records end up grouped together. -/
def groupBlocks : List Rec → List Rec → String → String → List (List Rec)
  | [], acc, _, _ => [acc]
  | r :: rest, acc, pc, ps =>
    if r.country = pc ∧ r.city = ps then
      groupBlocks rest (acc ++ [r]) pc ps
    else
      acc :: groupBlocks rest [r] r.country r.city

/-- Stable insertion into a date-ascending list (a record is placed after
every record whose date is ≤ its own). -/
def insertByDate (r : Rec) : List Rec → List Rec
  | [] => [r]
  | x :: xs => if dateLt r.date x.date then r :: x :: xs else x :: insertByDate r xs

/-- The call `image_data.sort(key=lambda x: x[3])`: a stable sort by date. -/
def sortByDate (l : List Rec) : List Rec :=
  l.foldr insertByDate []

/-- The whole `cluster_images` pipeline after `os.listdir`: index the
files (in their sorted-filename order), sort the records by date, then
run the grouping phase. -/
def cluster_images (resolve : Rat → Rat → String × String)
    (files : List MediaFile) : Except String (List Run) :=
  match indexFiles resolve files with
  | .error e => .error e
  | .ok image_data => processRuns (sortByDate image_data)

/-! ## Lemmas about the cache model -/

/-- Looking up the key just stored finds the stored value. -/
theorem lookup_storeSet_self {α : Type} (k : String) (v : α) :
    ∀ l : List (String × α), lookup? k (storeSet k v l) = some v := by
  intro l
  induction l with
  | nil => simp [storeSet, lookup?]
  | cons hd tl ih =>
    by_cases h : hd.1 = k
    · simp [storeSet, h, lookup?]
    · simp [storeSet, h, lookup?, ih]

/-- Assignment `storeSet` never produces an empty dictionary. -/
theorem storeSet_isEmpty {α : Type} (k : String) (v : α) :
    ∀ l : List (String × α), (storeSet k v l).isEmpty = false := by
  intro l
  cases l with
  | nil => rfl
  | cons hd tl =>
    by_cases h : hd.1 = k <;> simp [storeSet, h]

/-! ## Lemmas about the GPS conversion -/

/-- The code's enumerated sum, started at index `k`, written as an
indexed sum over positions. -/
theorem enumFrom_div_pow_sum (l : List Rat) (k : Nat) :
    ((l.enumFrom k).map (fun p => p.2 / 60 ^ p.1)).sum =
      ∑ i in Finset.range l.length, l.getD i 0 / 60 ^ (k + i) := by
  induction l generalizing k with
  | nil => simp
  | cons x xs ih =>
    simp only [List.enumFrom, List.map_cons, List.sum_cons, ih,
      List.length_cons, Finset.sum_range_succ', List.getD_cons_succ,
      List.getD_cons_zero, Nat.add_zero]
    rw [add_comm ((Finset.range xs.length).sum _) (x / 60 ^ k)]
    congr 1
    apply Finset.sum_congr rfl
    intro i _
    congr 2
    omega

/-- The code's `sum([float(x) / 60 ** n for n, x in enumerate(value)])`
equals the specification's `sum(component / 60^i for i, component in
enumerate(dms))`. -/
theorem dmsSum_eq_specDmsSum (l : List Rat) : dmsSum l = specDmsSum l := by
  have h := enumFrom_div_pow_sum l 0
  simpa [dmsSum, specDmsSum, List.enum] using h

/-- C9: for every GPS degree/minute/second list with a known hemisphere
reference, `get_coordinates` returns the spec formula
`sum(component / 60^i for i, component in enumerate(dms))` as the
decimal degrees, negated exactly when the latitude reference is `S`
resp. the longitude reference is `W`. -/
theorem get_coordinates_correct (g : Geotags) (latDms lonDms : List Rat)
    (latRef lonRef : String)
    (hlat : g.GPSLatitude = some latDms) (hlatRef : g.GPSLatitudeRef = some latRef)
    (hlon : g.GPSLongitude = some lonDms) (hlonRef : g.GPSLongitudeRef = some lonRef) :
    get_coordinates g =
      (some (if latRef = "S" then -specDmsSum latDms else specDmsSum latDms),
       some (if lonRef = "W" then -specDmsSum lonDms else specDmsSum lonDms)) := by
  simp [get_coordinates, hlat, hlatRef, hlon, hlonRef, dmsSum_eq_specDmsSum]

/-- Concrete geotag dictionary used to instantiate
`get_coordinates_correct`. -/
def gWitness : Geotags :=
  ⟨some [31, 30, 0], some "S", some [34], some "E", false⟩

/-- Witness for C9 at a concrete southern-hemisphere triple:
31° 30' 0'' S converts to -31.5 degrees, 34° E stays 34. -/
theorem get_coordinates_correct_witness :
    gWitness.GPSLatitude = some [31, 30, 0] ∧
    get_coordinates gWitness = (some (-(63 / 2 : Rat)), some (34 : Rat)) := by
  refine ⟨rfl, ?_⟩
  have h := get_coordinates_correct gWitness [31, 30, 0] [34] "S" "E" rfl rfl rfl rfl
  rw [h]
  norm_num [specDmsSum, Finset.sum_range_succ]
  decide

/-! ## Theorems about the Memo Cache -/

/-- C6: a first call with a fresh fingerprint is a miss that invokes the
wrapped function once, stores the value, and synchronously rewrites the
whole mapping to the store's file; the immediately repeated call with
the same fingerprint is a hit that returns the stored value without
invoking the wrapped function again. -/
theorem cache_memoizes {V : Type} (cache_file key : String) (compute : Unit → V)
    (s : CacheState V) (h : lookup? key (effectiveDb s cache_file) = none) :
    (cacheWrapper cache_file key compute s).calls = 1 ∧
    (cacheWrapper cache_file key compute s).value = compute () ∧
    lookup? cache_file (cacheWrapper cache_file key compute s).state.disk =
      some (storeSet key (compute ()) (effectiveDb s cache_file)) ∧
    (cacheWrapper cache_file key compute
      (cacheWrapper cache_file key compute s).state).calls = 0 ∧
    (cacheWrapper cache_file key compute
      (cacheWrapper cache_file key compute s).state).value = compute () := by
  have h1 : cacheWrapper cache_file key compute s =
      ⟨compute (), ⟨some (storeSet key (compute ()) (effectiveDb s cache_file)),
        storeSet cache_file (storeSet key (compute ()) (effectiveDb s cache_file)) s.disk⟩,
        1⟩ := by
    simp only [cacheWrapper, h]
  have h2 : ∀ disk2 : List (String × CacheDb V),
      cacheWrapper cache_file key compute
        ⟨some (storeSet key (compute ()) (effectiveDb s cache_file)), disk2⟩ =
      ⟨compute (), ⟨some (storeSet key (compute ()) (effectiveDb s cache_file)), disk2⟩, 0⟩ := by
    intro disk2
    have hd : effectiveDb
        (⟨some (storeSet key (compute ()) (effectiveDb s cache_file)), disk2⟩ : CacheState V)
          cache_file =
        storeSet key (compute ()) (effectiveDb s cache_file) := by
      simp [effectiveDb, dbFalsy, storeSet_isEmpty]
    simp only [cacheWrapper, hd, lookup_storeSet_self]
  refine ⟨by rw [h1], by rw [h1], ?_, ?_, ?_⟩
  · rw [h1]
    exact lookup_storeSet_self cache_file _ s.disk
  · rw [h1, h2 _]
  · rw [h1, h2 _]

/-- Witness for C6: a concrete miss-then-hit pair on an initially empty
state. -/
theorem cache_memoizes_witness :
    lookup? "fingerprint-a.jpg-type2"
      (effectiveDb (⟨none, []⟩ : CacheState Nat) "media_indexing.pkl") = none ∧
    (cacheWrapper "media_indexing.pkl" "fingerprint-a.jpg-type2" (fun _ => 5)
      (⟨none, []⟩ : CacheState Nat)).calls = 1 ∧
    (cacheWrapper "media_indexing.pkl" "fingerprint-a.jpg-type2" (fun _ => 5)
      (cacheWrapper "media_indexing.pkl" "fingerprint-a.jpg-type2" (fun _ => 5)
        (⟨none, []⟩ : CacheState Nat)).state).calls = 0 := by
  have h := cache_memoizes (V := Nat) "media_indexing.pkl" "fingerprint-a.jpg-type2"
    (fun _ => 5) ⟨none, []⟩ rfl
  exact ⟨rfl, h.1, h.2.2.2.1⟩

/-- A disk holding a persisted mapping for the metadata store only: its
file maps the fingerprint `"k"` to `7`. The coordinate store's file does
not exist. -/
def crossStoreStart : CacheState Nat :=
  ⟨none, [("media_indexing.pkl", [("k", 7)])]⟩

/-- C8 counterexample: after a first wrapped call under the coordinate
store's file (a miss computing `3`), a call under the metadata store's
file with the same fingerprint is served `3` from the shared global
mapping — not the `7` persisted in its own file, which is never loaded.
-/
theorem cache_store_isolation_counterexample :
    (cacheWrapper "media_indexing.pkl" "k" (fun _ => 99)
      (cacheWrapper "geo_coordinate_cache.pkl" "k" (fun _ => 3) crossStoreStart).state).value
        = 3 ∧
    (cacheWrapper "media_indexing.pkl" "k" (fun _ => 99)
      (cacheWrapper "geo_coordinate_cache.pkl" "k" (fun _ => 3) crossStoreStart).state).calls
        = 0 ∧
    lookup? "k" ((lookup? "media_indexing.pkl" crossStoreStart.disk).getD []) = some 7 ∧
    (3 : Nat) ≠ 7 :=
  ⟨rfl, rfl, rfl, by decide⟩

/-- C8 amended: all stores share the single module-level mapping. Once
the global holds a non-empty mapping, a call under ANY store file whose
fingerprint hits that mapping is answered from it, without consulting
the store's own persisted file and without invoking the wrapped
function. -/
theorem cache_shared_global (V : Type) (db : CacheDb V)
    (disk : List (String × CacheDb V)) (cache_file key : String)
    (compute : Unit → V) (v : V)
    (hne : db.isEmpty = false) (hhit : lookup? key db = some v) :
    cacheWrapper cache_file key compute ⟨some db, disk⟩ = ⟨v, ⟨some db, disk⟩, 0⟩ := by
  have hd : effectiveDb (⟨some db, disk⟩ : CacheState V) cache_file = db := by
    simp [effectiveDb, dbFalsy, hne]
  simp only [cacheWrapper, hd, hhit]

/-- Witness for C8's amended statement: a mapping loaded for the
coordinate store answers a lookup made under the metadata store's file.
-/
theorem cache_shared_global_witness :
    cacheWrapper "media_indexing.pkl" "k" (fun _ => 99)
      (⟨some [("k", 42)], []⟩ : CacheState Nat) = ⟨42, ⟨some [("k", 42)], []⟩, 0⟩ :=
  cache_shared_global Nat [("k", 42)] [] "media_indexing.pkl" "k" (fun _ => 99) 42 rfl rfl

/-! ## Theorems about the geocoding retry loop -/

/-- Provider oracle whose first attempt returns no result and whose later
attempts would succeed. -/
def noresThenOk : Nat → GeoAttempt (String × String) :=
  fun n => if n = 0 then .nores else .found ("France", "Paris")

/-- Provider oracle whose first attempt raises a service error and whose
later attempts succeed. -/
def svcErrThenOk : Nat → GeoAttempt (String × String) :=
  fun n => if n = 0 then .svcError else .found ("France", "Paris")

/-- C7 counterexample: an empty (no-result) first response makes the loop
abort at once with the uncaught exception and zero backoff sleeps — it
is NOT treated like the transient service error, which is caught, slept
on once, and followed by the successful second attempt. -/
theorem geo_nores_counterexample :
    (geoRetry noresThenOk).result = .error "Query failed for coordinates" ∧
    (geoRetry noresThenOk).sleeps = 0 ∧
    (geoRetry svcErrThenOk).result = .ok ("France", "Paris") ∧
    (geoRetry svcErrThenOk).sleeps = 1 :=
  ⟨rfl, rfl, rfl, rfl⟩

/-- C7 amended: within the attempt loop, a request that returns no result
raises a plain `Exception` that the `except GeocoderServiceError` clause
does not catch, so resolution aborts immediately with no backoff sleep
and no further attempts; only a service error consumes an attempt, adds
one backoff sleep, and continues. -/
theorem geo_nores_aborts (A : Type) (provider : Nat → GeoAttempt A)
    (attempt fuel sleeps : Nat) :
    (provider attempt = .nores →
      geoRetryAux provider attempt (fuel + 1) sleeps =
        ⟨.error "Query failed for coordinates", sleeps⟩) ∧
    (provider attempt = .svcError →
      geoRetryAux provider attempt (fuel + 1) sleeps =
        geoRetryAux provider (attempt + 1) fuel (sleeps + 1)) := by
  constructor <;> intro h <;> simp [geoRetryAux, h]

/-- Witness for C7's amended statement at attempt 0 with full fuel. -/
theorem geo_nores_aborts_witness :
    geoRetryAux noresThenOk 0 10 0 = ⟨.error "Query failed for coordinates", 0⟩ ∧
    geoRetryAux svcErrThenOk 0 10 0 = geoRetryAux svcErrThenOk 1 9 1 :=
  ⟨(geo_nores_aborts _ noresThenOk 0 9 0).1 rfl,
   (geo_nores_aborts _ svcErrThenOk 0 9 0).2 rfl⟩

/-! ## Lemmas about the Run Grouper -/

/-- The files of the emitted runs are exactly the files of the ghost
record-level blocks. -/
theorem processLoop_files (rest : List Rec) :
    ∀ (acc : List Rec) (pc ps : String) (sd pd : Date),
      (processLoop rest (acc.map Rec.path) pc ps sd pd).map Run.files =
        (groupBlocks rest acc pc ps).map (·.map Rec.path) := by
  induction rest with
  | nil =>
    intro acc pc ps sd pd
    simp [processLoop, groupBlocks, do_files]
  | cons r rs ih =>
    intro acc pc ps sd pd
    by_cases h : r.country = pc ∧ r.city = ps
    · rw [processLoop, groupBlocks, if_pos h, if_pos h]
      have hmap : acc.map Rec.path ++ [r.path] = (acc ++ [r]).map Rec.path := by simp
      rw [hmap, ih]
    · rw [processLoop, groupBlocks, if_neg h, if_neg h]
      have hone : [r.path] = [r].map Rec.path := rfl
      rw [List.map_append, hone, ih]
      simp [do_files]

/-- The ghost blocks concatenate back to the accumulator followed by the
remaining input: nothing is dropped or duplicated. -/
theorem groupBlocks_flatten (rest : List Rec) :
    ∀ (acc : List Rec) (pc ps : String),
      (groupBlocks rest acc pc ps).flatten = acc ++ rest := by
  induction rest with
  | nil => intro acc pc ps; simp [groupBlocks]
  | cons r rs ih =>
    intro acc pc ps
    by_cases h : r.country = pc ∧ r.city = ps
    · rw [groupBlocks, if_pos h]
      simp [ih]
    · rw [groupBlocks, if_neg h]
      simp [ih]

/-- Within one ghost block, every pair of records shares the same
`(country, city)`, provided the accumulator already does. -/
theorem groupBlocks_uniform (rest : List Rec) :
    ∀ (acc : List Rec) (pc ps : String),
      (∀ x ∈ acc, x.country = pc ∧ x.city = ps) →
      ∀ b ∈ groupBlocks rest acc pc ps, ∀ x ∈ b, ∀ y ∈ b,
        x.country = y.country ∧ x.city = y.city := by
  induction rest with
  | nil =>
    intro acc pc ps hacc b hb x hx y hy
    rw [groupBlocks] at hb
    simp only [List.mem_singleton] at hb
    subst hb
    obtain ⟨hxc, hxs⟩ := hacc x hx
    obtain ⟨hyc, hys⟩ := hacc y hy
    exact ⟨hxc.trans hyc.symm, hxs.trans hys.symm⟩
  | cons r rs ih =>
    intro acc pc ps hacc b hb x hx y hy
    by_cases h : r.country = pc ∧ r.city = ps
    · rw [groupBlocks, if_pos h] at hb
      refine ih (acc ++ [r]) pc ps ?_ b hb x hx y hy
      intro z hz
      rcases List.mem_append.mp hz with hz' | hz'
      · exact hacc z hz'
      · rw [List.mem_singleton] at hz'
        subst hz'
        exact h
    · rw [groupBlocks, if_neg h] at hb
      rcases List.mem_cons.mp hb with hb' | hb'
      · subst hb'
        obtain ⟨hxc, hxs⟩ := hacc x hx
        obtain ⟨hyc, hys⟩ := hacc y hy
        exact ⟨hxc.trans hyc.symm, hxs.trans hys.symm⟩
      · refine ih [r] r.country r.city ?_ b hb' x hx y hy
        intro z hz
        rw [List.mem_singleton] at hz
        subst hz
        exact ⟨rfl, rfl⟩

/-- The processing loop always emits at least one run (the final
`do_files` after the loop runs unconditionally). -/
theorem processLoop_ne_nil (rest : List Rec) :
    ∀ (copy_list : List String) (pc ps : String) (sd pd : Date),
      processLoop rest copy_list pc ps sd pd ≠ [] := by
  induction rest with
  | nil => intro copy_list pc ps sd pd; simp [processLoop, do_files]
  | cons r rs ih =>
    intro copy_list pc ps sd pd
    by_cases h : r.country = pc ∧ r.city = ps
    · rw [processLoop, if_pos h]
      exact ih _ _ _ _ _
    · rw [processLoop, if_neg h]
      simp [do_files]

/-- C1: for every date-sorted record sequence, the grouping phase
partitions it exactly — the emitted runs' file lists are the path lists
of consecutive blocks that concatenate back to the input (no file
dropped or duplicated), every block is location-uniform, and a final
run is always emitted for a non-empty input. -/
theorem run_grouper_partitions (rs : List Rec)
    (hsorted : List.Pairwise (fun a b => dateLe a.date b.date = true) rs) :
    (rs ≠ [] → emittedRuns rs ≠ []) ∧
    ∃ blocks : List (List Rec),
      blocks.flatten = rs ∧
      (emittedRuns rs).map Run.files = blocks.map (·.map Rec.path) ∧
      ((emittedRuns rs).map Run.files).flatten = rs.map Rec.path ∧
      ∀ b ∈ blocks, ∀ x ∈ b, ∀ y ∈ b,
        x.country = y.country ∧ x.city = y.city := by
  cases rs with
  | nil =>
    refine ⟨fun h => absurd rfl h, [], rfl, rfl, rfl, ?_⟩
    intro b hb
    simp at hb
  | cons f rest =>
    have hruns : emittedRuns (f :: rest) =
        processLoop (f :: rest) [] f.country f.city f.date f.date := rfl
    have hfiles : (emittedRuns (f :: rest)).map Run.files =
        (groupBlocks (f :: rest) [] f.country f.city).map (·.map Rec.path) := by
      rw [hruns]
      have h0 : ([] : List String) = ([] : List Rec).map Rec.path := rfl
      rw [h0, processLoop_files]
    have hflat : (groupBlocks (f :: rest) [] f.country f.city).flatten = f :: rest :=
      groupBlocks_flatten (f :: rest) [] f.country f.city
    refine ⟨fun _ => ?_, groupBlocks (f :: rest) [] f.country f.city, hflat, hfiles, ?_, ?_⟩
    · rw [hruns]
      exact processLoop_ne_nil _ _ _ _ _ _
    · rw [hfiles, ← List.map_flatten, hflat]
    · refine groupBlocks_uniform (f :: rest) [] f.country f.city ?_
      intro z hz
      simp at hz

/-- C2 (code bug in the source): with an empty record stream — an empty
input directory, or one whose only file is skipped — `cluster_images`
raises `IndexError` at `image_data[0]` instead of completing with zero
runs; no run has been emitted when the exception fires. -/
theorem empty_stream_raises (resolve : Rat → Rat → String × String) :
    cluster_images resolve [] = .error "IndexError: list index out of range" ∧
    cluster_images resolve [⟨"notes.txt", none, ⟨2024, 1, 1⟩⟩] =
      .error "IndexError: list index out of range" ∧
    emittedRuns [] = [] :=
  ⟨rfl, rfl, rfl⟩

/-- A `.jpg` with a complete GPS block and an EXIF date. -/
def parisJpg : MediaFile :=
  ⟨"a.jpg",
   some ⟨some ⟨some [31, 59, 0], some "N", some [34, 47, 0], some "E", false⟩,
         some ⟨2024, 1, 1⟩⟩,
   ⟨2024, 1, 1⟩⟩

/-- A `.mp4` file (videos carry no EXIF here). -/
def beachMp4 : MediaFile := ⟨"b.mp4", none, ⟨2024, 1, 2⟩⟩

/-- A resolver oracle that answers `(France, Paris)`. -/
def resolveFP : Rat → Rat → String × String := fun _ _ => ("France", "Paris")

/-- C3 counterexample: extraction for a `.mp4` yields `None`, not the
string `Unknown` (the resolver is indeed never invoked), and after a
picture resolved to `(France, Paris)` the video's indexed record
inherits `(France, Paris)` through `country or last_country` — it does
not carry `Unknown` into grouping. -/
theorem video_unknown_counterexample :
    (get_metadata beachMp4 resolveFP).1 = .ok (none, none, some ⟨2024, 1, 2⟩) ∧
    (get_metadata beachMp4 resolveFP).2 = false ∧
    (none : Option String) ≠ some "Unknown" ∧
    indexFiles resolveFP [parisJpg, beachMp4] =
      .ok [⟨"a.jpg", "France", "Paris", ⟨2024, 1, 1⟩⟩,
           ⟨"b.mp4", "France", "Paris", ⟨2024, 1, 2⟩⟩] ∧
    ("France", "Paris") ≠ ("Unknown", "Unknown") :=
  ⟨rfl, rfl, by decide, rfl, by decide⟩

/-- C3 amended: for every `.mp4` file, extraction returns `None` country
and city and the file's modification date, never invoking the resolver;
during indexing such a record is assigned the loop's current inherited
`last_country`/`last_city` pair (which is `Unknown` only when no earlier
indexed file had a truthy location). -/
theorem video_extraction_inherits (f : MediaFile)
    (resolve : Rat → Rat → String × String)
    (himg : isImagePath f.path = false) (hmp4 : isMp4Path f.path = true) :
    get_metadata f resolve = (.ok (none, none, some f.mtimeDate), false) ∧
    ∀ (items : List RawItem) (lc ls : String) (d : Date),
      indexLoop (⟨f.path, none, none, some d⟩ :: items) lc ls =
        ⟨f.path, lc, ls, d⟩ :: indexLoop items lc ls := by
  constructor
  · simp [get_metadata, himg, hmp4]
  · intro items lc ls d
    rfl

/-- Witness for C3's amended statement on the concrete video file. -/
theorem video_extraction_inherits_witness :
    isMp4Path "b.mp4" = true ∧
    get_metadata beachMp4 resolveFP = (.ok (none, none, some ⟨2024, 1, 2⟩), false) ∧
    indexLoop [⟨"b.mp4", none, none, some ⟨2024, 1, 2⟩⟩] "France" "Paris" =
      [⟨"b.mp4", "France", "Paris", ⟨2024, 1, 2⟩⟩] := by
  refine ⟨rfl, (video_extraction_inherits beachMp4 resolveFP rfl rfl).1, ?_⟩
  have h := (video_extraction_inherits beachMp4 resolveFP rfl rfl).2
    [] "France" "Paris" ⟨2024, 1, 2⟩
  simpa using h

/-- A `.jpg` whose `_getexif()` returns `None`. -/
def noExifJpg : MediaFile := ⟨"a.jpg", none, ⟨2024, 1, 1⟩⟩

/-- A `.jpg` with an EXIF block but no GPS sub-block and no
`DateTimeOriginal`. -/
def noGpsJpg : MediaFile := ⟨"c.jpg", some ⟨none, none⟩, ⟨2024, 3, 3⟩⟩

/-- C4 (code bug in the source): when the EXIF block is entirely absent,
`get_date_taken` evaluates `36867 in exif` with `exif = None` and raises
`TypeError`, so the file is not recovered with the modification-time
date — processing aborts (the resolver was indeed not invoked). When an
EXIF block exists but has no GPS sub-block, the claimed behaviour does
hold: `Unknown` location, no resolver call, modification-time date. -/
theorem no_exif_crashes (resolve : Rat → Rat → String × String) :
    get_metadata noExifJpg resolve =
      (.error "TypeError: argument of type NoneType is not iterable", false) ∧
    get_metadata noGpsJpg resolve =
      (.ok (some "Unknown", some "Unknown", some ⟨2024, 3, 3⟩), false) :=
  ⟨rfl, rfl⟩

/-- C5 counterexample: a single-date run located `(Unknown, Unknown)`
gets both sentinels appended to its label — `'Unknown'` is a truthy
string, so `if country and city:` takes the full join — and no slug
normalization is applied (the label keeps its capital letters). -/
theorem run_label_counterexample :
    subdirName ⟨2024, 1, 1⟩ ⟨2024, 1, 1⟩ "Unknown" "Unknown" =
      "2024-01-01_Unknown_Unknown" ∧
    "2024-01-01_Unknown_Unknown" ≠ "2024-01-01" ∧
    strLower "2024-01-01_Unknown_Unknown" ≠ "2024-01-01_Unknown_Unknown" :=
  ⟨by decide, by decide, by decide⟩

/-- C5 amended: the label is the raw `'_'.join`: the date range (the
start date alone when the run spans a single date, otherwise
`start_end`), followed by country and city whenever both are non-empty
strings — the `Unknown` sentinel included — with no slug normalization.
-/
theorem run_label_join (sd ed : Date) (c s : String) (hc : c ≠ "") (hs : s ≠ "") :
    subdirName sd ed c s =
      (if sd = ed then fmtDate sd else fmtDate sd ++ "_" ++ fmtDate ed) ++
        "_" ++ c ++ "_" ++ s := by
  simp only [subdirName]
  rw [if_pos (⟨hc, hs⟩ : c ≠ "" ∧ s ≠ "")]
  simp [String.intercalate, String.intercalate.go]

/-- Witness for C5's amended statement on a multi-date `Unknown` run. -/
theorem run_label_join_witness :
    ("Unknown" : String) ≠ "" ∧
    subdirName ⟨2024, 1, 1⟩ ⟨2024, 1, 3⟩ "Unknown" "Unknown" =
      (if (⟨2024, 1, 1⟩ : Date) = ⟨2024, 1, 3⟩ then fmtDate ⟨2024, 1, 1⟩
       else fmtDate ⟨2024, 1, 1⟩ ++ "_" ++ fmtDate ⟨2024, 1, 3⟩) ++
        "_" ++ "Unknown" ++ "_" ++ "Unknown" :=
  ⟨by decide, run_label_join _ _ _ _ (by decide) (by decide)⟩

/-- Witness for C1 on a concrete date-sorted three-record sequence with a
location change. -/
theorem run_grouper_partitions_witness :
    (let rs : List Rec :=
      [⟨"a.jpg", "France", "Paris", ⟨2024, 1, 1⟩⟩,
       ⟨"b.jpg", "France", "Paris", ⟨2024, 1, 2⟩⟩,
       ⟨"c.jpg", "Spain", "Madrid", ⟨2024, 1, 3⟩⟩]
     (rs ≠ [] → emittedRuns rs ≠ []) ∧
     ∃ blocks : List (List Rec),
       blocks.flatten = rs ∧
       (emittedRuns rs).map Run.files = blocks.map (·.map Rec.path) ∧
       ((emittedRuns rs).map Run.files).flatten = rs.map Rec.path ∧
       ∀ b ∈ blocks, ∀ x ∈ b, ∀ y ∈ b,
         x.country = y.country ∧ x.city = y.city) :=
  run_grouper_partitions _ (by decide)

/-! ## Lemmas about the indexing loop (for C10) -/

/-- Python `x or default` is: the value when truthy, otherwise the
default. -/
theorem pyOr_eq_truthy (o : Option String) (d : String) :
    pyOr o d = (truthyOpt o).getD d := by
  cases o with
  | none => rfl
  | some s => by_cases h : s = "" <;> simp [pyOr, truthyOpt, h]

/-- Folding one more element into `lastTruthy` from the left. -/
theorem lastTruthy_cons (d : String) (o : Option String) (xs : List (Option String)) :
    lastTruthy d (o :: xs) = lastTruthy ((truthyOpt o).getD d) xs := rfl

/-- Unfolding `keptItems` over a cons cell. -/
theorem keptItems_cons (it : RawItem) (rest : List RawItem) :
    keptItems (it :: rest) =
      if it.date.isSome then it :: keptItems rest else keptItems rest := by
  simp [keptItems, List.filter_cons]

/-- Unfolding `specRecords` over a skipped item. -/
theorem specRecords_cons_skip (it : RawItem) (rest : List RawItem)
    (lc ls : String) (hd : it.date = none) :
    specRecords (it :: rest) lc ls = specRecords rest lc ls := by
  have hkept : keptItems (it :: rest) = keptItems rest := by
    rw [keptItems_cons, hd]
    rfl
  simp only [specRecords, hkept]

/-- Unfolding `specRecords` over an indexed item: the head record applies the
`or`-inheritance once, and the tail is `specRecords` with the inherited
pair as the new defaults. -/
theorem specRecords_cons_keep (it : RawItem) (rest : List RawItem)
    (lc ls : String) (d : Date) (hd : it.date = some d) :
    specRecords (it :: rest) lc ls =
      ⟨it.path, pyOr it.country lc, pyOr it.city ls, d⟩ ::
        specRecords rest (pyOr it.country lc) (pyOr it.city ls) := by
  have hkept : keptItems (it :: rest) = it :: keptItems rest := by
    rw [keptItems_cons, hd]
    rfl
  simp only [specRecords, hkept, List.length_cons, List.range_succ_eq_map,
    List.map_cons, List.map_map]
  congr 1
  · simp [lastTruthy, pyOr_eq_truthy, hd]
  · apply List.map_congr_left
    intro i _
    simp only [Function.comp_apply, List.getD_cons_succ, List.take_succ_cons,
      List.map_cons, lastTruthy_cons, pyOr_eq_truthy]

/-- The indexing loop agrees with the specification-side description for
every pair of seeds. -/
theorem indexLoop_eq_specRecords (l : List RawItem) :
    ∀ lc ls : String, indexLoop l lc ls = specRecords l lc ls := by
  induction l with
  | nil =>
    intro lc ls
    simp [indexLoop, specRecords, keptItems]
  | cons it rest ih =>
    intro lc ls
    cases hd : it.date with
    | none =>
      simp only [indexLoop, hd]
      rw [ih lc ls, specRecords_cons_skip it rest lc ls hd]
    | some d =>
      simp only [indexLoop, hd]
      rw [ih (pyOr it.country lc) (pyOr it.city ls),
        specRecords_cons_keep it rest lc ls d hd]

/-- C10: starting from the `Unknown`/`Unknown` seeds, each record the
indexing loop appends keeps its file's path and date, and its
country/city is the most recently indexed truthy raw country/city among
the non-skipped files up to and including itself — `Unknown` when no
such value exists. Records skipped for a missing date contribute
nothing. -/
theorem index_inheritance (l : List RawItem) :
    indexLoop l "Unknown" "Unknown" = specRecords l "Unknown" "Unknown" :=
  indexLoop_eq_specRecords l "Unknown" "Unknown"
